import Mathlib

/-!
Verification development for the node-runner core of a data-transformation
batch executor (`dbt/node_runners.py`).

The Python source is shallowly embedded: pure computations become Lean
functions, exception control flow becomes `Except`, and observable side
effects (adapter calls, logging, printing) become explicit event traces
returned alongside the value.  External collaborators that the source file
only calls (the adapter, the compiler service, the template renderer, the
result of a materialization lookup, the rows returned by a query) are
passed in as parameters, so every theorem quantifies over their behaviour.
-/

set_option autoImplicit false

/-- Resource kinds of graph nodes (`dbt.node_types.NodeType`). -/
inductive NodeType where
  | Model
  | Test
  | Archive
  | Operation
  deriving DecidableEq, Repr

/-- A graph node, restricted to the fields the runner core reads.
`wrapped_sql` and `build_path` are set during compilation and may be absent. -/
structure Node where
  resource_type : NodeType
  name : String
  schema : String
  /-- The materialization strategy from the node's configuration map. -/
  materialization : String
  build_path : Option String := none
  wrapped_sql : Option String := none
  deriving DecidableEq, Repr

/-- Status values are free-form: adapter DDL tags (strings) or numeric test
results. -/
inductive StatusVal where
  | str (s : String)
  | num (n : Int)
  deriving DecidableEq, Repr

/-- `RunModelResult.__init__`: record of one execution attempt.  The Python
constructor defaults are `error=None, skip=False, status=None, failed=None,
execution_time=0`.  The `node` argument is modelled as `Option Node` so that
the spec-level claim "node is non-null" is expressible. -/
structure RunModelResult where
  node : Option Node
  error : Option String := none
  skip : Bool := false
  fail : Option Bool := none
  status : Option StatusVal := none
  execution_time : Nat := 0
  deriving DecidableEq, Repr

/-- The exception taxonomy visible to `safe_run`.  `compilationFault` and
`runtimeFault` carry an optional node (the Python exceptions have a mutable
`.node` attribute); `missingMaterialization` is the fault raised by the
materialization lookup failure path of `ModelRunner.execute`. -/
inductive DbtError where
  | compilationFault (msg : String) (node : Option Node)
  | runtimeFault (msg : String) (node : Option Node)
  | internalFault (msg : String)
  | otherFault (msg : String)
  | missingMaterialization (msg : String)
  deriving DecidableEq, Repr

/-- The `catchable_errors` tuple of `safe_run`: compilation and runtime
faults. -/
def isCatchable : DbtError → Bool
  | .compilationFault _ _ => true
  | .runtimeFault _ _ => true
  | _ => false

/-- The node carried by a fault (`e.node`), when the fault class has one. -/
def errNode : DbtError → Option Node
  | .compilationFault _ n => n
  | .runtimeFault _ n => n
  | _ => none

/-- Modelled from the spec: `dbt.compat.to_string(e)` is not in the shown
source; the spec says the captured error field is set to the fault's
message. -/
def to_string : DbtError → String
  | .compilationFault m _ => m
  | .runtimeFault m _ => m
  | .internalFault m => m
  | .otherFault m => m
  | .missingMaterialization m => m

/-- `INTERNAL_ERROR_STRING` from the source. -/
def INTERNAL_ERROR_STRING : String :=
  "This is an error in dbt. Please try again. If the error persists, open an issue at https://github.com/fishtown-analytics/dbt"

/-- Python `'...{}'.format(x)` renders `None` as the string `None`. -/
def fmtOpt : Option String → String
  | none => "None"
  | some s => s

/-- `is_model`: the node's resource type is Model. -/
def is_model (node : Node) : Bool :=
  node.resource_type = NodeType.Model

/-- Modelled from the spec: `dbt.utils.get_materialization` is not in the
shown source; the spec says the materialization strategy lives in the node's
configuration map, embedded here as the `materialization` field. -/
def get_materialization (node : Node) : String :=
  node.materialization

/-- `is_ephemeral`: the node's materialization strategy is `ephemeral`. -/
def is_ephemeral (node : Node) : Bool :=
  get_materialization node = "ephemeral"

/-- `is_ephemeral_model`: a Model node with ephemeral materialization. -/
def is_ephemeral_model (node : Node) : Bool :=
  is_model node && is_ephemeral node

/-- A runner instance, restricted to the state `safe_run` and `on_skip`
read. -/
structure BaseRunner where
  node : Node
  deriving DecidableEq, Repr

/-- Observable effects of one `safe_run` attempt, in order of occurrence. -/
inductive Event where
  | compileCalled
  | runCalled
  /-- The node held by a catchable fault after `safe_run` defaulted it
  (`if e.node is None: e.node = result.node`). -/
  | faultNodeAfterDefault (n : Option Node)
  | logDebug (msg : String)
  /-- `adapter.release_connection(self.profile, node_name)`. -/
  | released (conn : String)
  deriving DecidableEq, Repr

/-- Recognizer for connection-release events. -/
def Event.isReleased : Event → Bool
  | .released _ => true
  | _ => false

/-- `BaseRunner.safe_run`, shallowly embedded.  The compile step and the
kind-specific `run` are passed in as `Except`-valued parameters standing for
`self.compile(flat_graph)` and `self.run(compiled_node, existing,
flat_graph)`; `elapsed` stands for `time.time() - started`.  Returns the
Python return-or-raise outcome together with the trace of observable
effects.  The `finally` block appends exactly one release event on every
path, including the re-raise path. -/
def safe_run (self : BaseRunner) (compileRes : Except DbtError Node)
    (runRes : Node → Except DbtError RunModelResult) (elapsed : Nat) :
    Except DbtError RunModelResult × List Event :=
  let result0 : RunModelResult := { node := some self.node }
  let tryPhase : RunModelResult × Option DbtError × List Event :=
    match compileRes with
    | .error e => (result0, some e, [Event.compileCalled])
    | .ok compiled_node =>
      let result1 := { result0 with node := some compiled_node }
      if is_ephemeral_model self.node then
        (result1, none, [Event.compileCalled])
      else
        match runRes compiled_node with
        | .error e => (result1, some e, [Event.compileCalled, Event.runCalled])
        | .ok r => (r, none, [Event.compileCalled, Event.runCalled])
  let result := tryPhase.1
  let excOpt := tryPhase.2.1
  let evs := tryPhase.2.2
  let fin : List Event := [Event.released self.node.name]
  match excOpt with
  | none =>
    (Except.ok { result with execution_time := elapsed }, evs ++ fin)
  | some e =>
    if isCatchable e then
      let en := if errNode e = none then result.node else errNode e
      (Except.ok { result with
          error := some (to_string e),
          status := some (StatusVal.str "ERROR"),
          execution_time := elapsed },
       evs ++ [Event.faultNodeAfterDefault en] ++ fin)
    else
      match e with
      | .internalFault m =>
        let pfx := "Internal error executing " ++ fmtOpt self.node.build_path
        let errText := pfx ++ "\n" ++ m ++ "\n\n" ++ INTERNAL_ERROR_STRING
        (Except.ok { result with
            error := some (to_string (DbtError.internalFault m)),
            status := some (StatusVal.str "ERROR"),
            execution_time := elapsed },
         evs ++ [Event.logDebug errText] ++ fin)
      | e =>
        let pfx := "Unhandled error while executing " ++ fmtOpt self.node.build_path
        (Except.error e,
         evs ++ [Event.logDebug (pfx ++ "\n" ++ to_string e)] ++ fin)

/-- Effects of `BaseRunner.on_skip` other than building the result. -/
inductive SkipEvent where
  | printSkipLine
  deriving DecidableEq, Repr

/-- `BaseRunner.on_skip`: a skip-marked result; the skip line is printed
only for non-ephemeral-model nodes. -/
def on_skip (self : BaseRunner) : RunModelResult × List SkipEvent :=
  ({ node := some self.node, skip := true },
   if is_ephemeral_model self.node then [] else [SkipEvent.printSkipLine])

/-- `CompileRunner.execute`: wraps the compiled node into a trivially
successful result. -/
def CompileRunner.execute (compiled_node : Node) : RunModelResult :=
  { node := some compiled_node }

/-- The flat graph, restricted to its node collection
(`flat_graph['nodes'].values()`). -/
structure FlatGraph where
  nodes : List Node
  deriving DecidableEq, Repr

/-- `BaseRunner.get_model_schemas`: the set of schemas of all non-ephemeral
Model nodes.  The Python `set` is embedded as a duplicate-free list:
`schemas.add(...)` becomes `List.insert`, which inserts only when absent. -/
def get_model_schemas (flat_graph : FlatGraph) : List String :=
  flat_graph.nodes.foldl
    (fun schemas node =>
      if is_model node && !is_ephemeral node then schemas.insert node.schema
      else schemas)
    []

/-- `ModelRunner.create_schemas`: `existing_schemas` stands for the list the
adapter returns from `get_existing_schemas` (the source wraps it in `set`).
The returned list records the schemas passed to `adapter.create_schema`:
the loop runs over the set difference required minus existing, hitting each
element of the difference once. -/
def create_schemas (flat_graph : FlatGraph) (existing_schemas : List String) :
    List String :=
  (get_model_schemas flat_graph).filter (fun schema => schema ∉ existing_schemas)

/-- A compiled hook dictionary (`dbt.hooks.get_hook_dict` output); the loop
reads its `sql` key with default `''`. -/
structure HookDict where
  sql : Option String
  deriving DecidableEq, Repr

/-- Observable adapter effects of `ModelRunner.run_hooks`, in order. -/
inductive HookEvent where
  /-- `adapter.clear_transaction(profile)`. -/
  | clearTransaction
  /-- `dbt.contracts.graph.parsed.validate_hook(hook)` under strict mode. -/
  | validatedHook (hook : HookDict)
  /-- `adapter.execute_one(profile, sql, model_name=conn_name, auto_begin=...)`. -/
  | executedSql (sql : String) (model_name : String) (auto_begin : Bool)
  /-- `adapter.release_connection(profile, conn_name)`. -/
  | releasedConn (conn : String)
  deriving DecidableEq, Repr

/-- Recognizer for hook-connection release events. -/
def HookEvent.isReleasedConn : HookEvent → Bool
  | .releasedConn _ => true
  | _ => false

/-- Recognizer for hook statement executions. -/
def HookEvent.isExecutedSql : HookEvent → Bool
  | .executedSql _ _ _ => true
  | _ => false

/-- `ModelRunner.run_hooks`, from the clear-transaction call onward:
`conn_name` is the name `adapter.clear_transaction(profile)` returned, and
`compiled_hooks` is the list built by compiling each hook node (the
compilation pass itself performs no adapter effects claimed here).  The
per-hook loop validates under strict mode, executes the hook's sql with
`auto_begin=False`, and releases the connection inside the loop body;
`hook_loop_body` is one iteration of that loop. -/
def hook_loop_body (conn_name : String) (strict_mode : Bool)
    (hook : HookDict) : List HookEvent :=
  (if strict_mode then [HookEvent.validatedHook hook] else []) ++
  [HookEvent.executedSql (hook.sql.getD "") conn_name false,
   HookEvent.releasedConn conn_name]

def run_hooks (conn_name : String) (compiled_hooks : List HookDict)
    (strict_mode : Bool) : List HookEvent :=
  HookEvent.clearTransaction ::
    compiled_hooks.flatMap (hook_loop_body conn_name strict_mode)

/-- The arguments `TestRunner.execute_test` passes to
`adapter.execute_and_fetch`. -/
structure FetchCall where
  sql : Option String
  name : String
  auto_begin : Bool
  deriving DecidableEq, Repr

/-- How a malformed test result set fails: the explicit `RuntimeError` with
a descriptive message, or a bare index error from `rows[0]` / `rows[0][0]`. -/
inductive TestError where
  | runtimeError (msg : String)
  | indexError
  deriving DecidableEq, Repr

/-- `TestRunner.execute_test`: `rows` stands for the row list
`adapter.execute_and_fetch` returned.  Returns the fetch call made together
with the scalar-or-failure outcome.  Note the source checks only
`num_rows > 1`; a one-row result with no columns, or a zero-row result,
reaches the final `rows[0][0]` and fails with an index error. -/
def execute_test (test : Node) (rows : List (List StatusVal)) :
    FetchCall × Except TestError StatusVal :=
  (⟨test.wrapped_sql, test.name, true⟩,
   let num_rows := rows.length
   if num_rows > 1 then
     let num_cols := (rows.headD []).length
     Except.error (TestError.runtimeError
       ("Bad test " ++ test.name ++ ": Returned " ++ toString num_rows ++
        " rows and " ++ toString num_cols ++ " cols"))
   else
     match rows with
     | [] => Except.error TestError.indexError
     | row :: _ =>
       match row with
       | [] => Except.error TestError.indexError
       | v :: _ => Except.ok v)

/-- The materialization implementation a successful registry lookup
returns (`dbt.utils.get_materialization_macro`). -/
structure MaterializationImpl where
  name : String
  deriving DecidableEq, Repr

/-- A result object deposited into the context by the materialization
implementation, read back via `context['load_result']('main')`. -/
structure LoadedResult where
  status : StatusVal
  deriving DecidableEq, Repr

/-- Modelled from the spec: `dbt.exceptions.missing_materialization` is not
in the shown source; the spec requires a MissingMaterialization fault whose
message names the node and the adapter kind. -/
def missing_materialization_msg (model : Node) (adapter_type : String) : String :=
  "Materialization not found for node " ++ model.name ++ " with adapter " ++
    adapter_type

/-- Observable effects of `ModelRunner.execute`. -/
inductive ExecEvent where
  /-- `materialization_macro.get('generator')(context)()`. -/
  | generatorInvoked
  deriving DecidableEq, Repr

/-- `ModelRunner.execute`: `lookup_result` stands for the registry lookup
for the model's materialization and the adapter type, and `load_result`
stands for `context['load_result']`, reading back what the invoked
implementation deposited.  On a missing implementation the
MissingMaterialization fault is raised before anything is invoked. -/
def ModelRunner.execute (model : Node) (adapter_type : String)
    (lookup_result : Option MaterializationImpl)
    (load_result : String → LoadedResult) :
    Except DbtError RunModelResult × List ExecEvent :=
  match lookup_result with
  | none =>
    (Except.error (DbtError.missingMaterialization
      (missing_materialization_msg model adapter_type)), [])
  | some _ =>
    (Except.ok { node := some model, status := some (load_result "main").status },
     [ExecEvent.generatorInvoked])

/-- `TestRunner.execute`: wraps the scalar returned by `execute_test` into a
result whose status is that scalar. -/
def TestRunner.execute (test : Node) (rows : List (List StatusVal)) :
    Except TestError RunModelResult :=
  match (execute_test test rows).2 with
  | .error e => Except.error e
  | .ok status => Except.ok { node := some test, status := some status }

/-- A sample ephemeral model node used as witness input. -/
def ephemeralNode : Node :=
  { resource_type := NodeType.Model, name := "e", schema := "s",
    materialization := "ephemeral" }

/-- A sample table-materialized model node used as witness input. -/
def tableNode : Node :=
  { resource_type := NodeType.Model, name := "m", schema := "s",
    materialization := "table" }

/-- A sample test node used as counterexample and witness input. -/
def sampleTestNode : Node :=
  { resource_type := NodeType.Test, name := "t", schema := "s",
    materialization := "view", wrapped_sql := some "select count(x)" }

/-- Every `executedSql` event in a trace is immediately followed by a
release of the given connection. -/
def execThenRelease (conn : String) : List HookEvent → Bool
  | [] => true
  | HookEvent.executedSql _ _ _ :: rest =>
    match rest with
    | HookEvent.releasedConn c :: rest2 => c = conn && execThenRelease conn rest2
    | _ => false
  | _ :: rest => execThenRelease conn rest

/-- The last event of a trace. -/
def lastEvent : List Event → Option Event
  | [] => none
  | [ev] => some ev
  | _ :: ev :: rest => lastEvent (ev :: rest)

/-- C2: On every exit path of `safe_run` — normal return, catchable fault,
internal fault, and the fatal re-raise path — `adapter.release_connection`
is called exactly once, and it is the last observable effect before control
leaves `safe_run`; in particular a re-raised unclassified fault reaches the
caller only after the release. -/
theorem safe_run_releases_connection_exactly_once (self : BaseRunner)
    (cr : Except DbtError Node) (rr : Node → Except DbtError RunModelResult)
    (t : Nat) :
    (((safe_run self cr rr t).2).filter Event.isReleased).length = 1 ∧
    lastEvent ((safe_run self cr rr t).2) =
      some (Event.released self.node.name) := by
  rcases cr with e | cn
  · rcases e with ⟨m, n⟩ | ⟨m, n⟩ | m | m | m <;>
      simp [safe_run, isCatchable, lastEvent, List.filter, Event.isReleased]
  · cases h : is_ephemeral_model self.node
    · cases hr : rr cn with
      | error e =>
        rcases e with ⟨m, n⟩ | ⟨m, n⟩ | m | m | m <;>
          simp [safe_run, h, hr, isCatchable, lastEvent, List.filter,
            Event.isReleased]
      | ok r =>
        simp [safe_run, h, hr, lastEvent, List.filter, Event.isReleased]
    · simp [safe_run, h, lastEvent, List.filter, Event.isReleased]

/-- C1: `safe_run` returns an outcome with non-null node on every normal
return (given that the kind-specific `run` builds its results around a
node, as every runner in this file does); on a catchable fault from compile
or from run it returns normally with `error` set to the fault's message and
`status` set to `ERROR`, and the fault's node is defaulted to the result's
current node — the original node if compile faulted, the compiled node if
run faulted — whenever the fault carried none, so the defaulted fault node
is always non-null. -/
theorem safe_run_catchable_capture (self : BaseRunner)
    (cr : Except DbtError Node) (rr : Node → Except DbtError RunModelResult)
    (t : Nat)
    (hrr : ∀ cn r, rr cn = Except.ok r → (r.node).isSome = true) :
    (∀ r, (safe_run self cr rr t).1 = Except.ok r → (r.node).isSome = true) ∧
    (∀ e, cr = Except.error e → isCatchable e = true →
      (safe_run self cr rr t).1 = Except.ok
        { node := some self.node, error := some (to_string e),
          status := some (StatusVal.str "ERROR"), execution_time := t } ∧
      (if errNode e = none then some self.node else errNode e).isSome = true ∧
      Event.faultNodeAfterDefault
          (if errNode e = none then some self.node else errNode e) ∈
        (safe_run self cr rr t).2) ∧
    (∀ cn e, cr = Except.ok cn → is_ephemeral_model self.node = false →
      rr cn = Except.error e → isCatchable e = true →
      (safe_run self cr rr t).1 = Except.ok
        { node := some cn, error := some (to_string e),
          status := some (StatusVal.str "ERROR"), execution_time := t } ∧
      (if errNode e = none then some cn else errNode e).isSome = true ∧
      Event.faultNodeAfterDefault
          (if errNode e = none then some cn else errNode e) ∈
        (safe_run self cr rr t).2) := by
  refine ⟨?_, ?_, ?_⟩
  · intro r hok
    rcases cr with e | cn
    · rcases e with ⟨m, n⟩ | ⟨m, n⟩ | m | m | m <;>
        simp [safe_run, isCatchable] at hok <;> (subst hok; rfl)
    · cases h : is_ephemeral_model self.node
      · cases hr : rr cn with
        | error e =>
          rcases e with ⟨m, n⟩ | ⟨m, n⟩ | m | m | m <;>
            simp [safe_run, h, hr, isCatchable] at hok <;> (subst hok; rfl)
        | ok r' =>
          simp [safe_run, h, hr] at hok
          subst hok
          exact hrr cn r' hr
      · simp [safe_run, h] at hok
        subst hok; rfl
  · intro e hcr hc
    subst hcr
    rcases e with ⟨m, n⟩ | ⟨m, n⟩ | m | m | m <;>
      simp_all [safe_run, isCatchable, errNode] <;> cases n <;> simp
  · intro cn e hcr h hr hc
    subst hcr
    rcases e with ⟨m, n⟩ | ⟨m, n⟩ | m | m | m <;>
      simp_all [safe_run, isCatchable, errNode] <;> cases n <;> simp

/-- C3: `is_ephemeral_model` holds exactly for Model nodes whose
materialization strategy is `ephemeral`; for such a node `safe_run` calls
compile but never the run/execute phase, and when compile succeeds the
outcome is built from the compiled node alone (all other fields at their
constructor defaults, plus the measured time). -/
theorem safe_run_ephemeral_compiles_without_execute (self : BaseRunner)
    (cr : Except DbtError Node) (rr : Node → Except DbtError RunModelResult)
    (t : Nat) :
    (∀ n : Node, is_ephemeral_model n = true ↔
      (n.resource_type = NodeType.Model ∧ get_materialization n = "ephemeral")) ∧
    (is_ephemeral_model self.node = true →
      Event.compileCalled ∈ (safe_run self cr rr t).2 ∧
      Event.runCalled ∉ (safe_run self cr rr t).2 ∧
      (∀ cn, cr = Except.ok cn →
        (safe_run self cr rr t).1 =
          Except.ok { node := some cn, execution_time := t })) := by
  constructor
  · intro n
    simp [is_ephemeral_model, is_model, is_ephemeral, get_materialization]
  · intro he
    refine ⟨?_, ?_, ?_⟩
    · rcases cr with e | cn
      · rcases e with ⟨m, n⟩ | ⟨m, n⟩ | m | m | m <;>
          simp [safe_run, isCatchable]
      · simp [safe_run, he]
    · rcases cr with e | cn
      · rcases e with ⟨m, n⟩ | ⟨m, n⟩ | m | m | m <;>
          simp [safe_run, isCatchable]
      · simp [safe_run, he]
    · intro cn hcr
      subst hcr
      simp [safe_run, he]

/-- Witness for C3 at a concrete ephemeral model node. -/
theorem safe_run_ephemeral_compiles_without_execute_witness :
    Event.runCalled ∉
      (safe_run ⟨ephemeralNode⟩
        (Except.ok { ephemeralNode with build_path := some "target/e.sql" })
        (fun _ => Except.error (DbtError.otherFault "never invoked")) 3).2 :=
  ((safe_run_ephemeral_compiles_without_execute ⟨ephemeralNode⟩
    (Except.ok { ephemeralNode with build_path := some "target/e.sql" })
    (fun _ => Except.error (DbtError.otherFault "never invoked")) 3).2
      (by decide)).2.1

/-- C9: for an ephemeral model whose compile succeeds, the outcome of
`safe_run` is not marked skipped and carries no error and no status. -/
theorem safe_run_ephemeral_outcome_not_marked_skipped (self : BaseRunner)
    (cr : Except DbtError Node) (rr : Node → Except DbtError RunModelResult)
    (t : Nat) (cn : Node)
    (he : is_ephemeral_model self.node = true) (hcr : cr = Except.ok cn) :
    ∃ r, (safe_run self cr rr t).1 = Except.ok r ∧
      r.skip = false ∧ r.error = none ∧ r.status = none ∧ r.node = some cn := by
  subst hcr
  exact ⟨{ node := some cn, execution_time := t },
    by simp [safe_run, he], rfl, rfl, rfl, rfl⟩

/-- Witness for C9 at a concrete ephemeral model node. -/
theorem safe_run_ephemeral_outcome_not_marked_skipped_witness :
    ∃ r, (safe_run ⟨ephemeralNode⟩ (Except.ok ephemeralNode)
        (fun cn => Except.ok { node := some cn }) 4).1 = Except.ok r ∧
      r.skip = false ∧ r.error = none ∧ r.status = none ∧
      r.node = some ephemeralNode :=
  safe_run_ephemeral_outcome_not_marked_skipped _ _ _ 4 _ rfl rfl

/-- C7: no outcome produced by `on_skip`, by the success path of
`safe_run`, or by the catchable-fault path of `safe_run` has both
`skip=true` and a non-null error.  The hypothesis mirrors the concrete
runners of the file, whose execute methods always construct results with
`skip=false`; the final conjunct records this for the base
`CompileRunner.execute`. -/
theorem outcomes_never_skip_with_error (self : BaseRunner)
    (cr : Except DbtError Node) (rr : Node → Except DbtError RunModelResult)
    (t : Nat)
    (hrr : ∀ cn r, rr cn = Except.ok r → r.skip = false) :
    (¬(((on_skip self).1).skip = true ∧ ((on_skip self).1).error ≠ none)) ∧
    (∀ r, (safe_run self cr rr t).1 = Except.ok r →
      ¬(r.skip = true ∧ r.error ≠ none)) ∧
    (∀ cn, (CompileRunner.execute cn).skip = false) := by
  refine ⟨?_, ?_, ?_⟩
  · simp [on_skip]
  · intro r hok
    rcases cr with e | cn
    · rcases e with ⟨m, n⟩ | ⟨m, n⟩ | m | m | m <;>
        simp [safe_run, isCatchable] at hok <;> (subst hok; simp)
    · cases h : is_ephemeral_model self.node
      · cases hr : rr cn with
        | error e =>
          rcases e with ⟨m, n⟩ | ⟨m, n⟩ | m | m | m <;>
            simp [safe_run, h, hr, isCatchable] at hok <;> (subst hok; simp)
        | ok r' =>
          simp [safe_run, h, hr] at hok
          subst hok
          simp [hrr cn r' hr]
      · simp [safe_run, h] at hok
        subst hok
        simp
  · intro cn
    rfl

/-- Witness for C1: a catchable compile fault carrying no node is captured
into a normally-returned outcome with the original node, the message as the
error, and status ERROR. -/
theorem safe_run_catchable_capture_witness :
    (safe_run ⟨tableNode⟩ (Except.error (DbtError.compilationFault "boom" none))
        (fun cn => Except.ok { node := some cn }) 7).1 =
      Except.ok
        { node := some tableNode, error := some "boom",
          status := some (StatusVal.str "ERROR"), execution_time := 7 } :=
  ((safe_run_catchable_capture ⟨tableNode⟩
      (Except.error (DbtError.compilationFault "boom" none))
      (fun cn => Except.ok { node := some cn }) 7
      (fun _ _ h => (Except.ok.inj h) ▸ rfl)).2.1
    (DbtError.compilationFault "boom" none) rfl rfl).1

/-- Witness for C7: the on-skip outcome of a concrete node never has both
skip and a non-null error. -/
theorem outcomes_never_skip_with_error_witness :
    ¬(((on_skip ⟨tableNode⟩).1).skip = true ∧
      ((on_skip ⟨tableNode⟩).1).error ≠ none) :=
  (outcomes_never_skip_with_error ⟨tableNode⟩ (Except.ok tableNode)
    (fun cn => Except.ok { node := some cn }) 1
    (fun _ _ h => (Except.ok.inj h) ▸ rfl)).1

/-- The set embedded as a dedup list stays duplicate-free through the
foldl of `get_model_schemas`. -/
theorem get_model_schemas_nodup (flat_graph : FlatGraph) :
    (get_model_schemas flat_graph).Nodup := by
  have aux : ∀ (nodes : List Node) (acc : List String), acc.Nodup →
      (nodes.foldl
        (fun schemas node =>
          if is_model node && !is_ephemeral node then schemas.insert node.schema
          else schemas) acc).Nodup := by
    intro nodes
    induction nodes with
    | nil => intro acc h; simpa using h
    | cons n rest ih =>
      intro acc h
      simp only [List.foldl_cons]
      split
      · exact ih _ h.insert
      · exact ih _ h
  exact aux _ [] List.nodup_nil

/-- C4: the schema-creation step of `ModelRunner.before_run` issues one
`create_schema` call per schema in (schemas of non-ephemeral Model nodes)
minus (existing schemas), with no duplicates and nothing else; when the
required schemas are a subset of the existing ones it creates none. -/
theorem create_schemas_exactly_required_minus_existing (flat_graph : FlatGraph)
    (existing : List String) :
    (create_schemas flat_graph existing).toFinset =
      (get_model_schemas flat_graph).toFinset \ existing.toFinset ∧
    (create_schemas flat_graph existing).Nodup ∧
    (get_model_schemas flat_graph ⊆ existing →
      create_schemas flat_graph existing = []) := by
  refine ⟨?_, (get_model_schemas_nodup flat_graph).filter _, ?_⟩
  · ext schema
    simp [create_schemas, List.mem_filter]
  · intro hsub
    rw [create_schemas, List.filter_eq_nil_iff]
    intro schema hmem
    simp [hsub hmem]

/-- Witness for C4: required schemas a and b with a existing create
exactly b; with both existing, nothing is created. -/
theorem create_schemas_exactly_required_minus_existing_witness :
    create_schemas
        ⟨[{ tableNode with schema := "a" }, { tableNode with schema := "b" },
          { ephemeralNode with schema := "c" }]⟩ ["a"] = ["b"] ∧
    create_schemas
        ⟨[{ tableNode with schema := "a" }, { tableNode with schema := "b" },
          { ephemeralNode with schema := "c" }]⟩ ["a", "b"] = [] := by
  constructor
  · decide
  · exact (create_schemas_exactly_required_minus_existing
      ⟨[{ tableNode with schema := "a" }, { tableNode with schema := "b" },
        { ephemeralNode with schema := "c" }]⟩ ["a", "b"]).2.2 (by decide)

/-- Counterexample to C5 as stated: with two hooks the connection is
released inside the loop, once per hook — the first release happens before
the second hook statement executes, and there are two releases in total,
not a single one after the loop. -/
theorem run_hooks_release_inside_loop_cex :
    run_hooks "conn" [⟨some "s1"⟩, ⟨some "s2"⟩] false =
      [HookEvent.clearTransaction,
       HookEvent.executedSql "s1" "conn" false,
       HookEvent.releasedConn "conn",
       HookEvent.executedSql "s2" "conn" false,
       HookEvent.releasedConn "conn"] ∧
    ((run_hooks "conn" [⟨some "s1"⟩, ⟨some "s2"⟩] false).filter
        HookEvent.isReleasedConn).length = 2 := by
  exact ⟨rfl, rfl⟩

/-- A flatMap trace where each per-item block contributes exactly one
event matched by `p` has as many matched events as items. -/
theorem filter_flatMap_length_eq (p : HookEvent → Bool)
    (f : HookDict → List HookEvent)
    (hone : ∀ h, ((f h).filter p).length = 1) :
    ∀ hooks : List HookDict, ((hooks.flatMap f).filter p).length = hooks.length := by
  intro hooks
  induction hooks with
  | nil => rfl
  | cons hook rest ih =>
    rw [List.flatMap_cons, List.filter_append, List.length_append, hone, ih]
    exact Nat.add_comm 1 rest.length

/-- Each loop iteration keeps the exec-then-release shape of the trace. -/
theorem execThenRelease_flatMap (conn : String) (strict : Bool) :
    ∀ hooks : List HookDict,
      execThenRelease conn
        (hooks.flatMap (hook_loop_body conn strict)) = true := by
  intro hooks
  induction hooks with
  | nil => rfl
  | cons hook rest ih =>
    cases strict <;> simpa [hook_loop_body, execThenRelease] using ih

/-- C5 (amended): `run_hooks` clears the ambient transaction as its very
first adapter action, before any hook statement; every hook statement
executes with `auto_begin=False` on the hook connection; and the hook
connection is released once per hook inside the loop — immediately after
each hook's statement — rather than once after the loop. -/
theorem run_hooks_transaction_discipline (conn : String)
    (hooks : List HookDict) (strict : Bool) :
    (run_hooks conn hooks strict).head? = some HookEvent.clearTransaction ∧
    (∀ s m b, HookEvent.executedSql s m b ∈ run_hooks conn hooks strict →
      b = false ∧ m = conn) ∧
    ((run_hooks conn hooks strict).filter HookEvent.isExecutedSql).length =
      hooks.length ∧
    ((run_hooks conn hooks strict).filter HookEvent.isReleasedConn).length =
      hooks.length ∧
    execThenRelease conn (run_hooks conn hooks strict) = true := by
  refine ⟨rfl, ?_, ?_, ?_, ?_⟩
  · intro s m b hmem
    simp only [run_hooks, List.mem_cons, List.mem_flatMap] at hmem
    rcases hmem with h | ⟨hook, _, hin⟩
    · exact absurd h (by simp)
    · cases strict <;>
        simp [hook_loop_body] at hin <;>
        rcases hin with ⟨_, hm, hb⟩ <;> exact ⟨hb, hm⟩
  · have : (run_hooks conn hooks strict).filter HookEvent.isExecutedSql =
        (hooks.flatMap (hook_loop_body conn strict)).filter
          HookEvent.isExecutedSql := rfl
    rw [this]
    exact filter_flatMap_length_eq _ _ (fun h => by cases strict <;> rfl) hooks
  · have : (run_hooks conn hooks strict).filter HookEvent.isReleasedConn =
        (hooks.flatMap (hook_loop_body conn strict)).filter
          HookEvent.isReleasedConn := rfl
    rw [this]
    exact filter_flatMap_length_eq _ _ (fun h => by cases strict <;> rfl) hooks
  · have : execThenRelease conn (run_hooks conn hooks strict) =
        execThenRelease conn
          (hooks.flatMap (hook_loop_body conn strict)) := rfl
    rw [this]
    exact execThenRelease_flatMap conn strict hooks

/-- Witness for C5 (amended) at one hook under strict mode. -/
theorem run_hooks_transaction_discipline_witness :
    false = false ∧ "c" = "c" :=
  (run_hooks_transaction_discipline "c" [⟨some "sql"⟩] true).2.1
    "sql" "c" false (by decide)

/-- Counterexample to C6 as stated: on a result set with exactly one row
and zero columns, `execute_test` does not raise a descriptive fault naming
the test, the row count and the column count — the single-row check
`num_rows > 1` passes, the code goes on to read row 0, and `rows[0][0]`
fails with a bare index error. -/
theorem execute_test_zero_columns_cex :
    (execute_test sampleTestNode [[]]).2 = Except.error TestError.indexError :=
  rfl

/-- C6 (amended): on exactly one row with at least one column,
`execute_test` returns the first cell; on more than one row it raises a
descriptive fault whose message names the test, the row count and the
column count; but a zero-column single row — like a zero-row result — is
not given a descriptive message: the code reads row 0 and fails with a
bare index error. -/
theorem execute_test_result_contract (test : Node)
    (rows : List (List StatusVal)) :
    (∀ v cs, rows = [v :: cs] → (execute_test test rows).2 = Except.ok v) ∧
    (rows.length > 1 →
      (execute_test test rows).2 = Except.error (TestError.runtimeError
        ("Bad test " ++ test.name ++ ": Returned " ++ toString rows.length ++
         " rows and " ++ toString (rows.headD []).length ++ " cols")) ∧
      (∃ a b c, "Bad test " ++ test.name ++ ": Returned " ++
          toString rows.length ++ " rows and " ++
          toString (rows.headD []).length ++ " cols" =
        a ++ test.name ++ b ++ toString rows.length ++ c ++
          toString (rows.headD []).length ++ " cols")) ∧
    ((execute_test test []).2 = Except.error TestError.indexError) ∧
    ((execute_test test [[]]).2 = Except.error TestError.indexError) := by
  refine ⟨?_, ?_, rfl, rfl⟩
  · intro v cs hrows
    subst hrows
    rfl
  · intro hlen
    constructor
    · simp only [execute_test, hlen, if_pos]
    · exact ⟨"Bad test ", ": Returned ", " rows and ", by
        simp [String.append_assoc]⟩

/-- Witness for C6 (amended): a well-formed one-row one-column result
yields the scalar; a two-row result yields the descriptive fault. -/
theorem execute_test_result_contract_witness :
    (execute_test sampleTestNode [[StatusVal.num 0]]).2 =
      Except.ok (StatusVal.num 0) ∧
    (execute_test sampleTestNode [[StatusVal.num 1], [StatusVal.num 2]]).2 =
      Except.error (TestError.runtimeError
        "Bad test t: Returned 2 rows and 1 cols") :=
  ⟨(execute_test_result_contract sampleTestNode [[StatusVal.num 0]]).1
      (StatusVal.num 0) [] rfl,
   ((execute_test_result_contract sampleTestNode
      [[StatusVal.num 1], [StatusVal.num 2]]).2.1 (by decide)).1⟩

/-- C8: `ModelRunner.execute` with no registered materialization
implementation fails with a MissingMaterialization fault whose message
names the node and the adapter kind, invoking nothing; with a registered
implementation it invokes it and takes the outcome's status from the
result the implementation deposited under the context key `main`. -/
theorem ModelRunner_execute_materialization_dispatch (model : Node)
    (adapter_type : String) (lookup_result : Option MaterializationImpl)
    (load_result : String → LoadedResult) :
    (lookup_result = none →
      (ModelRunner.execute model adapter_type lookup_result load_result).1 =
        Except.error (DbtError.missingMaterialization
          (missing_materialization_msg model adapter_type)) ∧
      (∃ a b, missing_materialization_msg model adapter_type =
        a ++ model.name ++ b ++ adapter_type) ∧
      (ModelRunner.execute model adapter_type lookup_result load_result).2 =
        []) ∧
    (∀ impl, lookup_result = some impl →
      (ModelRunner.execute model adapter_type lookup_result load_result).2 =
        [ExecEvent.generatorInvoked] ∧
      (ModelRunner.execute model adapter_type lookup_result load_result).1 =
        Except.ok
          { node := some model,
            status := some (load_result "main").status }) := by
  constructor
  · intro hnone
    subst hnone
    exact ⟨rfl,
      ⟨"Materialization not found for node ", " with adapter ", by
        simp [missing_materialization_msg, String.append_assoc]⟩, rfl⟩
  · intro impl hsome
    subst hsome
    exact ⟨rfl, rfl⟩

/-- Witness for C8: with no implementation registered the fault names node
and adapter kind; with one registered the status is read back from the
`main` result. -/
theorem ModelRunner_execute_materialization_dispatch_witness :
    (ModelRunner.execute tableNode "postgres" none
        (fun _ => ⟨StatusVal.str "CREATE TABLE"⟩)).1 =
      Except.error (DbtError.missingMaterialization
        (missing_materialization_msg tableNode "postgres")) ∧
    (ModelRunner.execute tableNode "postgres" (some ⟨"table"⟩)
        (fun _ => ⟨StatusVal.str "CREATE TABLE"⟩)).1 =
      Except.ok
        { node := some tableNode,
          status := some (StatusVal.str "CREATE TABLE") } :=
  ⟨((ModelRunner_execute_materialization_dispatch tableNode "postgres" none
      (fun _ => ⟨StatusVal.str "CREATE TABLE"⟩)).1 rfl).1,
   ((ModelRunner_execute_materialization_dispatch tableNode "postgres"
      (some ⟨"table"⟩) (fun _ => ⟨StatusVal.str "CREATE TABLE"⟩)).2
        ⟨"table"⟩ rfl).2⟩

/-- C10: the test assertion query always goes through
`execute_and_fetch` with `auto_begin=True` — inside a transaction — and
the call carries the test's wrapped sql and name. -/
theorem execute_test_runs_in_transaction (test : Node)
    (rows : List (List StatusVal)) :
    (execute_test test rows).1.auto_begin = true ∧
    (execute_test test rows).1 = ⟨test.wrapped_sql, test.name, true⟩ :=
  ⟨rfl, rfl⟩
